import Mathlib

/-!
Shallow embedding of src/transaction_verifier.py, a command-line tool that
verifies Paystack transactions.  Python dictionaries produced by JSON parsing
are modelled as association lists over an inductive JSON value type; console
interaction is modelled by passing the scripted user inputs explicitly; the
HTTP layer is modelled by an oracle mapping the issued request to a result.
A Python exception that the code does not catch is modelled by the value
none (for display_results) or by a dedicated outcome constructor.
-/

namespace Verifier

/-- JSON values as returned by response.json().  Numbers are modelled as
integers, which covers every field the program reads (amount is an integer
number of kobo). -/
inductive JVal where
  | jnull
  | jbool (b : Bool)
  | jnum (n : Int)
  | jstr (s : String)
  | jarr (xs : List JVal)
  | jobj (fields : List (String × JVal))

/-- A parsed JSON object: association list with the keys distinct, as in a
Python dict. -/
abbrev TxDict := List (String × JVal)

/-- Python dict.get(k) with no default: some value when the key is present,
none otherwise. -/
def dictGet (d : TxDict) (k : String) : Option JVal :=
  (d.find? (fun p => p.1 == k)).map (fun p => p.2)

/-- Python dict.get(k, dflt). -/
def getDefault (d : TxDict) (k : String) (dflt : JVal) : JVal :=
  (dictGet d k).getD dflt

/-- Python truthiness of a JSON value. -/
def pyTruthy : JVal → Bool
  | JVal.jnull => false
  | JVal.jbool b => b
  | JVal.jnum n => n != 0
  | JVal.jstr s => s != ""
  | JVal.jarr xs => !xs.isEmpty
  | JVal.jobj fields => !fields.isEmpty

/-- Python truthiness of dict.get(k), where an absent key gives None. -/
def pyTruthyOpt : Option JVal → Bool
  | none => false
  | some v => pyTruthy v

/- ------------------------------------------------------------------ -/
/- get_user_input (lines 30-71)                                        -/
/- ------------------------------------------------------------------ -/

/-- The constant MAX_INPUT_ATTEMPTS = 3 (line 19). -/
def MAX_INPUT_ATTEMPTS : Nat := 3

/-- What happens on one iteration of the input loop: either a
KeyboardInterrupt or EOFError is raised at one of the two prompts, or the
user enters an api key and then a reference. -/
inductive AttemptEvent where
  | interrupt
  | entered (api_key reference : String)

/-- Python str.lower(), applied characterwise (the program only compares the
result against ASCII keywords). -/
def pyLower (s : String) : String :=
  String.mk (s.data.map Char.toLower)

/-- The test s.lower() in [quit, exit] used on both prompts
(lines 44 and 50). -/
def isQuitWord (s : String) : Bool :=
  pyLower s == "quit" || pyLower s == "exit"

/-- The for-loop body of get_user_input, with the remaining iteration count
as first argument.  An exhausted event list behaves like an EOFError (input
raises at end of stream), which the except clause turns into (None, None). -/
def get_user_input_go : Nat → List AttemptEvent → Option String × Option String
  | 0, _ => (none, none)
  | Nat.succ _, [] => (none, none)
  | Nat.succ _, AttemptEvent.interrupt :: _ => (none, none)
  | Nat.succ n, AttemptEvent.entered api_key reference :: rest =>
    if isQuitWord api_key then (none, none)
    else if isQuitWord reference then (none, none)
    else if api_key ≠ "" ∧ reference ≠ "" then (some api_key, some reference)
    else get_user_input_go n rest

/-- get_user_input (lines 30-71): prompts for an api key and a reference for
at most MAX_INPUT_ATTEMPTS attempts. -/
def get_user_input (events : List AttemptEvent) : Option String × Option String :=
  get_user_input_go MAX_INPUT_ATTEMPTS events

/-- An attempt on which the loop neither returns a pair nor quits: the user
entered values, no quit keyword, and the key or the reference is empty. -/
def failedAttempt (e : AttemptEvent) : Prop :=
  ∃ k r, e = AttemptEvent.entered k r ∧ isQuitWord k = false ∧
    isQuitWord r = false ∧ (k = "" ∨ r = "")

/- ------------------------------------------------------------------ -/
/- verify_paystack (lines 73-103)                                      -/
/- ------------------------------------------------------------------ -/

/-- The constant PAYSTACK_API_URL (line 18). -/
def PAYSTACK_API_URL : String := "https://api.paystack.co/transaction/verify/"

/-- An HTTP request as built by requests.get(url, headers=..., timeout=...). -/
structure HttpRequest where
  method : String
  url : String
  headers : List (String × String)
  timeout : Nat

/-- The body of an HTTP response, as seen through response.json(): either the
parse raises (malformed body) or it yields a JSON value. -/
inductive HttpBody where
  | malformed
  | json (v : JVal)

/-- What the network returns for a request: a raised
requests.exceptions.RequestException (connection error, timeout, ...) or a
response with a status code and a body. -/
inductive HttpResult where
  | exn (msg : String)
  | response (statusCode : Nat) (body : HttpBody)

/-- The observable outcome of verify_paystack: ok d models returning
data.get(the data key); errNone models printing an error message and
returning None; uncaught models an exception that the function does not
catch and that propagates to the caller. -/
inductive VerifyOutcome where
  | ok (data : Option JVal)
  | errNone
  | uncaught

/-- True exactly on the uncaught outcome. -/
def isUncaught : VerifyOutcome → Bool
  | VerifyOutcome.uncaught => true
  | _ => false

/-- The request that verify_paystack builds on lines 84-87 and 91: a GET to
PAYSTACK_API_URL with the reference appended, a bearer Authorization header,
and timeout=20. -/
def verifyRequest (api_key reference : String) : HttpRequest :=
  { method := "GET"
    url := PAYSTACK_API_URL ++ reference
    headers := [("Authorization", "Bearer " ++ api_key)]
    timeout := 20 }

/-- The try block of verify_paystack, lines 89-103, applied to what the
network returned.  raise_for_status raises an HTTPError, a subclass of
RequestException, for codes 400-599, and the except clause catches every
RequestException, including the JSONDecodeError raised by response.json()
on a malformed body.  When the body is valid JSON that is not an object,
data.get raises an AttributeError, which no clause catches. -/
def handleResponse : HttpResult → VerifyOutcome
  | HttpResult.exn _ => VerifyOutcome.errNone
  | HttpResult.response code body =>
    if 400 ≤ code ∧ code < 600 then VerifyOutcome.errNone
    else
      match body with
      | HttpBody.malformed => VerifyOutcome.errNone
      | HttpBody.json (JVal.jobj d) =>
        if pyTruthyOpt (dictGet d "status") then VerifyOutcome.ok (dictGet d "data")
        else VerifyOutcome.errNone
      | HttpBody.json _ => VerifyOutcome.uncaught

/-- verify_paystack (lines 73-103), with the network modelled by the oracle
world.  Returns the outcome together with the list of requests issued. -/
def verify_paystack (api_key reference : String)
    (world : HttpRequest → HttpResult) : VerifyOutcome × List HttpRequest :=
  let req := verifyRequest api_key reference
  (handleResponse (world req), [req])

/- ------------------------------------------------------------------ -/
/- display_results (lines 105-139)                                     -/
/- ------------------------------------------------------------------ -/

/-- The value cell of a table row: plain text, or the Amount cell, which the
code renders from the converted amount and the currency string
(line 127).  The numeric value is carried exactly, as a rational; the code
computes it with Python float division and formats it with two decimals. -/
inductive Cell where
  | text (s : String)
  | money (value : ℚ) (currency : String)

/-- One row of the rich table: the Field column and the Value column. -/
structure Row where
  field : String
  value : Cell

/-- What display_results shows: the failure message of line 113 with no
table, or the table plus the style given to the status row
(lines 132-136). -/
inductive DisplayOut where
  | failure
  | table (rows : List Row) (statusStyle : String)

/-- Python str.title(), used on the status (line 125): uppercase a letter
that does not follow a letter, lowercase a letter that does. -/
def pyTitleChar (prevAlpha : Bool) (c : Char) : Char :=
  if c.isAlpha then (if prevAlpha then c.toLower else c.toUpper) else c

/-- Recursion for pyTitle over the characters. -/
def pyTitleGo : Bool → List Char → List Char
  | _, [] => []
  | prev, c :: cs => pyTitleChar prev c :: pyTitleGo c.isAlpha cs

/-- Python str.title(). -/
def pyTitle (s : String) : String :=
  String.mk (pyTitleGo false s.data)

/-- Reading a value that the code uses as a string: any other shape makes
the code raise when it calls a string method or hands the value to the
table renderer. -/
def asStr : JVal → Option String
  | JVal.jstr s => some s
  | _ => none

/-- Reading a value that the code divides by 100: a non-number raises a
TypeError. -/
def asInt : JVal → Option Int
  | JVal.jnum n => some n
  | _ => none

/-- Reading a value that the code calls .get on: a non-object raises an
AttributeError. -/
def asObj : JVal → Option TxDict
  | JVal.jobj fields => some fields
  | _ => none

/-- Lines 116-139 of display_results: extract the seven displayed values
with their defaults (lines 120-130), build the six rows, and style the
status row (lines 132-136).  A value of the wrong shape makes the Python
code raise, modelled by none. -/
def renderTable (d : TxDict) : Option DisplayOut :=
  match asStr (getDefault d "status" (JVal.jstr "N/A")),
        asInt (getDefault d "amount" (JVal.jnum 0)),
        asStr (getDefault d "currency" (JVal.jstr "")),
        asStr (getDefault d "reference" (JVal.jstr "N/A")),
        asObj (getDefault d "customer" (JVal.jobj [])) with
  | some status, some amountKobo, some currency, some reference, some customer =>
    match asStr (getDefault customer "email" (JVal.jstr "N/A")),
          asStr (getDefault d "paid_at" (getDefault d "created_at" (JVal.jstr "N/A"))),
          asStr (getDefault d "channel" (JVal.jstr "N/A")) with
    | some email, some txdate, some channel =>
      some (DisplayOut.table
        [⟨"Status", Cell.text (pyTitle status)⟩,
         ⟨"Reference", Cell.text reference⟩,
         ⟨"Amount", Cell.money ((amountKobo : ℚ) / 100) currency⟩,
         ⟨"Customer Email", Cell.text email⟩,
         ⟨"Transaction Date", Cell.text txdate⟩,
         ⟨"Channel", Cell.text channel⟩]
        (if status = "success" then "bold green" else "bold red"))
    | _, _, _ => none
  | _, _, _, _, _ => none

/-- display_results (lines 105-139) on the value main passes it, which is
None or whatever the data field of the response held.  A falsy argument
hits the early return of lines 112-114; a truthy non-object raises on
data.get, modelled by none. -/
def display_results (data : Option JVal) : Option DisplayOut :=
  match data with
  | none => some DisplayOut.failure
  | some v =>
    if pyTruthy v then
      match v with
      | JVal.jobj d => renderTable d
      | _ => none
    else some DisplayOut.failure

/- ------------------------------------------------------------------ -/
/- main (lines 141-161)                                                -/
/- ------------------------------------------------------------------ -/

/-- The scripted user interaction for one iteration of the while loop: the
events for get_user_input, the network behaviour, and the raw answer typed
at the verify-another prompt. -/
structure IterationInput where
  events : List AttemptEvent
  world : HttpRequest → HttpResult
  again : String

/-- How a run of main finishes: done models breaking out of the loop and
printing Goodbye; crashed models an uncaught exception; outOfScript means
the scripted interactions ran out while the loop would have continued.
Each constructor carries the requests issued so far. -/
inductive MainResult where
  | done (requests : List HttpRequest)
  | crashed (requests : List HttpRequest)
  | outOfScript (requests : List HttpRequest)

/-- Prepend already-issued requests to the result of the rest of the run. -/
def prependReqs (rs : List HttpRequest) : MainResult → MainResult
  | MainResult.done rs' => MainResult.done (rs ++ rs')
  | MainResult.crashed rs' => MainResult.crashed (rs ++ rs')
  | MainResult.outOfScript rs' => MainResult.outOfScript (rs ++ rs')

/-- The value main passes to display_results: the returned data on the ok
outcome, None when verify_paystack returned None. -/
def outcomeData : VerifyOutcome → Option JVal
  | VerifyOutcome.ok d => d
  | _ => none

/-- Python str(x) on the reference component, which main interpolates into
the URL through verify_paystack: None prints as the four letters None. -/
def pyOptStr : Option String → String
  | none => "None"
  | some s => s

/-- The while loop of main (lines 145-159).  Each iteration calls
get_user_input; a falsy api key breaks; otherwise verify_paystack runs,
display_results renders, and the loop repeats exactly when the lowercased
answer is y. -/
def mainLoop : List IterationInput → MainResult
  | [] => MainResult.outOfScript []
  | it :: rest =>
    match get_user_input it.events with
    | (none, _) => MainResult.done []
    | (some k, refOpt) =>
      if k = "" then MainResult.done []
      else
        let vr := verify_paystack k (pyOptStr refOpt) it.world
        if isUncaught vr.1 then MainResult.crashed vr.2
        else
          match display_results (outcomeData vr.1) with
          | none => MainResult.crashed vr.2
          | some _ =>
            if pyLower it.again = "y" then prependReqs vr.2 (mainLoop rest)
            else MainResult.done vr.2

/- ------------------------------------------------------------------ -/
/- Derived descriptions of the displayed values, used to state the     -/
/- theorems about display_results                                      -/
/- ------------------------------------------------------------------ -/

/-- The key k, when present in d, holds a string. -/
def isStrField (d : TxDict) (k : String) : Prop :=
  ∀ v, dictGet d k = some v → ∃ s, v = JVal.jstr s

/-- The key k, when present in d, holds a number. -/
def isIntField (d : TxDict) (k : String) : Prop :=
  ∀ v, dictGet d k = some v → ∃ n, v = JVal.jnum n

/-- A transaction dict whose displayed fields, when present, have the
shapes the code expects of the Paystack response: strings for status,
currency, reference, paid_at, created_at and channel, a number for amount,
and an object with a string email for customer. -/
def WellTypedTx (d : TxDict) : Prop :=
  isStrField d "status" ∧ isIntField d "amount" ∧ isStrField d "currency" ∧
  isStrField d "reference" ∧ isStrField d "paid_at" ∧
  isStrField d "created_at" ∧ isStrField d "channel" ∧
  ∀ c, dictGet d "customer" = some c →
    ∃ cd, c = JVal.jobj cd ∧ isStrField cd "email"

/-- The string shown for a string field: its value when present as a
string, the given default otherwise. -/
def strFieldOr (d : TxDict) (k dflt : String) : String :=
  (asStr (getDefault d k (JVal.jstr dflt))).getD dflt

/-- The status string of line 120. -/
def statusOf (d : TxDict) : String :=
  strFieldOr d "status" "N/A"

/-- The amount in kobo of line 122 before conversion: the amount field, or
0 when absent. -/
def amountOr (d : TxDict) : Int :=
  (asInt (getDefault d "amount" (JVal.jnum 0))).getD 0

/-- The customer object of line 128: the customer field, or the empty dict
when absent. -/
def customerOf (d : TxDict) : TxDict :=
  (asObj (getDefault d "customer" (JVal.jobj []))).getD []

/-- The customer email of line 128. -/
def emailOf (d : TxDict) : String :=
  strFieldOr (customerOf d) "email" "N/A"

/-- The transaction date of line 129: paid_at, else created_at, else the
default. -/
def dateOf (d : TxDict) : String :=
  (asStr (getDefault d "paid_at" (getDefault d "created_at" (JVal.jstr "N/A")))).getD "N/A"

/-- The six rows that display_results adds on lines 125-130, described
field by field. -/
def rowsOf (d : TxDict) : List Row :=
  [⟨"Status", Cell.text (pyTitle (statusOf d))⟩,
   ⟨"Reference", Cell.text (strFieldOr d "reference" "N/A")⟩,
   ⟨"Amount", Cell.money ((amountOr d : ℚ) / 100) (strFieldOr d "currency" "")⟩,
   ⟨"Customer Email", Cell.text (emailOf d)⟩,
   ⟨"Transaction Date", Cell.text (dateOf d)⟩,
   ⟨"Channel", Cell.text (strFieldOr d "channel" "N/A")⟩]

/-- The style of the status row, lines 132-136. -/
def styleOf (d : TxDict) : String :=
  if statusOf d = "success" then "bold green" else "bold red"

/-- A network interaction that the except clause of verify_paystack
handles: a raised RequestException, a 4xx or 5xx status code (turned into
an HTTPError by raise_for_status), or a body that is not valid JSON (the
JSONDecodeError raised by response.json() is a RequestException). -/
def requestFails : HttpResult → Prop
  | HttpResult.exn _ => True
  | HttpResult.response code body =>
    (400 ≤ code ∧ code < 600) ∨ body = HttpBody.malformed

/-- A network interaction on which no exception escapes verify_paystack:
either the except clause handles it, or the body parses to a JSON
object. -/
def handledResult (res : HttpResult) : Prop :=
  requestFails res ∨
  ∃ code d, res = HttpResult.response code (HttpBody.json (JVal.jobj d))

/- ------------------------------------------------------------------ -/
/- Lemmas about the input loop                                         -/
/- ------------------------------------------------------------------ -/

lemma go_skip_failed (n : Nat) (e : AttemptEvent) (rest : List AttemptEvent)
    (he : failedAttempt e) :
    get_user_input_go (n + 1) (e :: rest) = get_user_input_go n rest := by
  obtain ⟨k, r, rfl, hk, hr, hkr⟩ := he
  rcases hkr with rfl | rfl <;> simp [get_user_input_go, hk, hr]

lemma go_quit (n : Nat) (k r : String) (rest : List AttemptEvent)
    (hq : isQuitWord k = true ∨ isQuitWord r = true) :
    get_user_input_go (n + 1) (AttemptEvent.entered k r :: rest) = (none, none) := by
  by_cases hk : isQuitWord k = true
  · simp [get_user_input_go, hk]
  · rcases hq with h | h
    · exact absurd h hk
    · simp [get_user_input_go, hk, h]

lemma go_success (n : Nat) (k r : String) (rest : List AttemptEvent)
    (hk : isQuitWord k = false) (hr : isQuitWord r = false)
    (hk2 : k ≠ "") (hr2 : r ≠ "") :
    get_user_input_go (n + 1) (AttemptEvent.entered k r :: rest) = (some k, some r) := by
  simp [get_user_input_go, hk, hr, hk2, hr2]

lemma go_skip_failed_front (pre tail : List AttemptEvent) (n : Nat)
    (h : ∀ e ∈ pre, failedAttempt e) (hn : pre.length ≤ n) :
    get_user_input_go n (pre ++ tail) = get_user_input_go (n - pre.length) tail := by
  induction pre generalizing n with
  | nil => simp
  | cons e pre ih =>
    cases n with
    | zero => simp at hn
    | succ n =>
      rw [List.cons_append, go_skip_failed n e _ (h e (by simp))]
      rw [ih n (fun e he => h e (by simp [he])) (by simpa using hn)]
      simp [Nat.succ_sub_succ]

lemma go_invariant (n : Nat) (events : List AttemptEvent) :
    get_user_input_go n events = (none, none) ∨
    ∃ k r, get_user_input_go n events = (some k, some r) ∧ k ≠ "" ∧ r ≠ "" := by
  induction n generalizing events with
  | zero => left; rfl
  | succ n ih =>
    cases events with
    | nil => left; rfl
    | cons e rest =>
      cases e with
      | interrupt => left; rfl
      | entered k r =>
        by_cases hk : isQuitWord k = true
        · left; simp [get_user_input_go, hk]
        · by_cases hr : isQuitWord r = true
          · left; simp [get_user_input_go, hk, hr]
          · by_cases hkr : k ≠ "" ∧ r ≠ ""
            · right
              refine ⟨k, r, ?_, hkr.1, hkr.2⟩
              simp [get_user_input_go, hk, hr, hkr]
            · have hstep : get_user_input_go (n + 1) (AttemptEvent.entered k r :: rest) =
                  get_user_input_go n rest := by
                simp [get_user_input_go, hk, hr, hkr]
              rw [hstep]
              exact ih rest

/- ------------------------------------------------------------------ -/
/- Claim theorems C1, C9, C4                                           -/
/- ------------------------------------------------------------------ -/

/-- Claim C1: get_user_input returns the entered pair as soon as an attempt
supplies a non-empty key and a non-empty reference that are not quit
keywords, and returns none for both components when the key or the
reference is empty on each of the MAX_INPUT_ATTEMPTS = 3 consecutive
attempts. -/
theorem get_user_input_retry_spec :
    (∀ (pre : List AttemptEvent) (k r : String) (tail : List AttemptEvent),
      pre.length < MAX_INPUT_ATTEMPTS → (∀ e ∈ pre, failedAttempt e) →
      isQuitWord k = false → isQuitWord r = false → k ≠ "" → r ≠ "" →
      get_user_input (pre ++ AttemptEvent.entered k r :: tail) = (some k, some r)) ∧
    (∀ (e1 e2 e3 : AttemptEvent) (tail : List AttemptEvent),
      failedAttempt e1 → failedAttempt e2 → failedAttempt e3 →
      get_user_input (e1 :: e2 :: e3 :: tail) = (none, none)) := by
  constructor
  · intro pre k r tail hlen hpre hk hr hk2 hr2
    unfold get_user_input
    rw [go_skip_failed_front pre _ _ hpre (Nat.le_of_lt hlen)]
    obtain ⟨m, hm⟩ : ∃ m, MAX_INPUT_ATTEMPTS - pre.length = m + 1 := by
      have h3 : MAX_INPUT_ATTEMPTS = 3 := rfl
      rw [h3] at hlen ⊢
      exact ⟨3 - pre.length - 1, by omega⟩
    rw [hm]
    exact go_success m k r tail hk hr hk2 hr2
  · intro e1 e2 e3 tail h1 h2 h3
    show get_user_input_go (0 + 1 + 1 + 1) (e1 :: e2 :: e3 :: tail) = (none, none)
    rw [go_skip_failed _ _ _ h1, go_skip_failed _ _ _ h2, go_skip_failed _ _ _ h3]
    rfl

/-- Witness for C1 at concrete inputs: one failed attempt followed by a
successful one returns the entered pair, and three empty attempts return
none for both components. -/
theorem get_user_input_retry_spec_witness :
    get_user_input [AttemptEvent.entered "" "", AttemptEvent.entered "sk1" "ref1"] =
      (some "sk1", some "ref1") ∧
    get_user_input [AttemptEvent.entered "" "r", AttemptEvent.entered "" "r",
      AttemptEvent.entered "" "r"] = (none, none) := by
  have hfail1 : failedAttempt (AttemptEvent.entered "" "") :=
    ⟨"", "", rfl, by decide, by decide, Or.inl rfl⟩
  have hfail2 : failedAttempt (AttemptEvent.entered "" "r") :=
    ⟨"", "r", rfl, by decide, by decide, Or.inl rfl⟩
  constructor
  · exact get_user_input_retry_spec.1 [AttemptEvent.entered "" ""] "sk1" "ref1" []
      (by decide) (by intro e he; simp at he; rw [he]; exact hfail1)
      (by decide) (by decide) (by decide) (by decide)
  · exact get_user_input_retry_spec.2 _ _ _ [] hfail2 hfail2 hfail2

/-- Claim C9: get_user_input returns either none for both components or a
pair of non-empty strings, so the check of the key alone in main decides
whether both inputs are usable. -/
theorem get_user_input_invariant (events : List AttemptEvent) :
    get_user_input events = (none, none) ∨
    ∃ k r, get_user_input events = (some k, some r) ∧ k ≠ "" ∧ r ≠ "" :=
  go_invariant MAX_INPUT_ATTEMPTS events

/-- Claim C4: a quit keyword entered at the key prompt or at the reference
prompt makes get_user_input return none for both components, and the main
loop then stops having issued no request. -/
theorem quit_aborts (pre tail : List AttemptEvent) (k r : String)
    (rest : List IterationInput) (world : HttpRequest → HttpResult) (again : String)
    (hlen : pre.length < MAX_INPUT_ATTEMPTS) (hpre : ∀ e ∈ pre, failedAttempt e)
    (hq : isQuitWord k = true ∨ isQuitWord r = true) :
    get_user_input (pre ++ AttemptEvent.entered k r :: tail) = (none, none) ∧
    mainLoop (⟨pre ++ AttemptEvent.entered k r :: tail, world, again⟩ :: rest) =
      MainResult.done [] := by
  have hget : get_user_input (pre ++ AttemptEvent.entered k r :: tail) = (none, none) := by
    unfold get_user_input
    rw [go_skip_failed_front pre _ _ hpre (Nat.le_of_lt hlen)]
    obtain ⟨m, hm⟩ : ∃ m, MAX_INPUT_ATTEMPTS - pre.length = m + 1 := by
      have h3 : MAX_INPUT_ATTEMPTS = 3 := rfl
      rw [h3] at hlen ⊢
      exact ⟨3 - pre.length - 1, by omega⟩
    rw [hm]
    exact go_quit m k r tail hq
  refine ⟨hget, ?_⟩
  simp [mainLoop, hget]

/-- Witness for C4: entering the word quit as the secret key on the first
attempt aborts at once with no request issued. -/
theorem quit_aborts_witness :
    get_user_input [AttemptEvent.entered "quit" "x"] = (none, none) ∧
    mainLoop [⟨[AttemptEvent.entered "quit" "x"], fun _ => HttpResult.exn "net", "y"⟩] =
      MainResult.done [] :=
  quit_aborts [] [] "quit" "x" [] (fun _ => HttpResult.exn "net") "y"
    (by decide) (by intro e he; cases he) (Or.inl (by decide))

/- ------------------------------------------------------------------ -/
/- Claim theorems C5, C3, C8                                           -/
/- ------------------------------------------------------------------ -/

/-- Claim C5: verify_paystack issues exactly one GET request, to the fixed
HTTPS verification endpoint with the reference appended, with a bearer
Authorization header built from the api key and a timeout of 20
seconds. -/
theorem verify_paystack_one_request (api_key reference : String)
    (world : HttpRequest → HttpResult) :
    ∃ req, (verify_paystack api_key reference world).2 = [req] ∧
      req.method = "GET" ∧
      req.url = PAYSTACK_API_URL ++ reference ∧
      (∃ tail, req.url = "https://" ++ tail) ∧
      req.headers = [("Authorization", "Bearer " ++ api_key)] ∧
      req.timeout = 20 := by
  refine ⟨verifyRequest api_key reference, rfl, rfl, rfl, ?_, rfl, rfl⟩
  refine ⟨"api.paystack.co/transaction/verify/" ++ reference, ?_⟩
  show PAYSTACK_API_URL ++ reference =
    "https://" ++ ("api.paystack.co/transaction/verify/" ++ reference)
  rw [← String.append_assoc]
  have h : ("https://" : String) ++ "api.paystack.co/transaction/verify/" =
      PAYSTACK_API_URL := by decide
  rw [h]

/-- Counterexample to claim C3: a 200 response whose body is valid JSON but
not an object (here an empty array) makes the data.get call raise an
AttributeError that no except clause catches, so an error does propagate
out of the verification call. -/
theorem verify_uncaught_counterexample :
    (verify_paystack "sk_test" "ref1"
      (fun _ => HttpResult.response 200 (HttpBody.json (JVal.jarr [])))).1 =
    VerifyOutcome.uncaught := rfl

/-- One step of the main loop when get_user_input produced a usable pair
and neither verification nor display raises: the loop repeats exactly when
the lowercased answer is y. -/
lemma mainLoop_cons_step (it : IterationInput) (rest : List IterationInput)
    (k r : String)
    (hin : get_user_input it.events = (some k, some r)) (hk : k ≠ "")
    (hnc : isUncaught (verify_paystack k r it.world).1 = false)
    (hd : display_results (outcomeData (verify_paystack k r it.world).1) ≠ none) :
    mainLoop (it :: rest) =
      if pyLower it.again = "y"
      then prependReqs (verify_paystack k r it.world).2 (mainLoop rest)
      else MainResult.done (verify_paystack k r it.world).2 := by
  obtain ⟨out, hout⟩ := Option.ne_none_iff_exists'.mp hd
  have hp : pyOptStr (some r) = r := rfl
  simp only [mainLoop, hin, hp, if_neg hk, hnc, Bool.false_eq_true, if_false, hout]

/-- Claim C3 as amended: every raised RequestException, every 4xx or 5xx
status and every malformed JSON body is caught, verify_paystack returns
None and the main loop goes on to the verify-another prompt; a response
whose body is a JSON object also never lets an error escape.  (The
uncaught case exhibited by the counterexample, a valid non-object JSON
body, is the one exception.) -/
theorem verify_errors_handled :
    (∀ (k r : String) (world : HttpRequest → HttpResult),
      requestFails (world (verifyRequest k r)) →
      (verify_paystack k r world).1 = VerifyOutcome.errNone) ∧
    (∀ (k r : String) (world : HttpRequest → HttpResult),
      handledResult (world (verifyRequest k r)) →
      (verify_paystack k r world).1 ≠ VerifyOutcome.uncaught) ∧
    (∀ (it : IterationInput) (rest : List IterationInput) (k r : String),
      get_user_input it.events = (some k, some r) → k ≠ "" →
      (verify_paystack k r it.world).1 = VerifyOutcome.errNone →
      mainLoop (it :: rest) =
        if pyLower it.again = "y"
        then prependReqs (verify_paystack k r it.world).2 (mainLoop rest)
        else MainResult.done (verify_paystack k r it.world).2) := by
  refine ⟨?_, ?_, ?_⟩
  · intro k r world hfail
    show handleResponse (world (verifyRequest k r)) = VerifyOutcome.errNone
    cases hres : world (verifyRequest k r) with
    | exn msg => rfl
    | response code body =>
      rw [hres] at hfail
      rcases hfail with hcode | hbody
      · simp [handleResponse, hcode]
      · subst hbody
        by_cases hcode : 400 ≤ code ∧ code < 600 <;> simp [handleResponse, hcode]
  · intro k r world hhand
    show handleResponse (world (verifyRequest k r)) ≠ VerifyOutcome.uncaught
    cases hres : world (verifyRequest k r) with
    | exn msg => intro h; cases h
    | response code body =>
      rw [hres] at hhand
      rcases hhand with hfail | ⟨code2, d, hobj⟩
      · rcases hfail with hcode | hbody
        · simp [handleResponse, hcode]
        · subst hbody
          by_cases hcode : 400 ≤ code ∧ code < 600 <;> simp [handleResponse, hcode]
      · injection hobj with h1 h2
        subst h1
        rw [h2]
        by_cases hcode : 400 ≤ code ∧ code < 600
        · simp [handleResponse, hcode]
        · simp [handleResponse, hcode]
          by_cases hstat : pyTruthyOpt (dictGet d "status") = true <;> simp [hstat]
  · intro it rest k r hin hk hout
    have hnc : isUncaught (verify_paystack k r it.world).1 = false := by
      rw [hout]; rfl
    have hd : display_results (outcomeData (verify_paystack k r it.world).1) ≠ none := by
      rw [hout]
      intro h
      exact Option.noConfusion h
    exact mainLoop_cons_step it rest k r hin hk hnc hd

/-- Witness for the amended C3 at concrete inputs: a connection error is
caught and turned into the None return, and the loop then reaches the
verify-another prompt and stops on the answer n. -/
theorem verify_errors_handled_witness :
    (verify_paystack "sk1" "ref1" (fun _ => HttpResult.exn "net")).1 =
      VerifyOutcome.errNone ∧
    (verify_paystack "sk1" "ref1"
      (fun _ => HttpResult.response 200 (HttpBody.json (JVal.jobj [])))).1 ≠
      VerifyOutcome.uncaught ∧
    mainLoop [⟨[AttemptEvent.entered "sk1" "ref1"], fun _ => HttpResult.exn "net", "n"⟩] =
      MainResult.done (verify_paystack "sk1" "ref1" (fun _ => HttpResult.exn "net")).2 := by
  refine ⟨?_, ?_, ?_⟩
  · exact verify_errors_handled.1 "sk1" "ref1" (fun _ => HttpResult.exn "net") trivial
  · exact verify_errors_handled.2.1 "sk1" "ref1"
      (fun _ => HttpResult.response 200 (HttpBody.json (JVal.jobj [])))
      (Or.inr ⟨200, [], rfl⟩)
  · have h := verify_errors_handled.2.2
      ⟨[AttemptEvent.entered "sk1" "ref1"], fun _ => HttpResult.exn "net", "n"⟩ []
      "sk1" "ref1" (by decide) (by decide) rfl
    rw [h]
    rfl

/-- Claim C8: once an iteration reaches the verify-another prompt, the loop
repeats exactly when the lowercased answer is y, and any other answer ends
the run normally. -/
theorem repeat_iff_answer_y (it : IterationInput) (rest : List IterationInput)
    (k r : String)
    (hin : get_user_input it.events = (some k, some r)) (hk : k ≠ "")
    (hnc : isUncaught (verify_paystack k r it.world).1 = false)
    (hd : display_results (outcomeData (verify_paystack k r it.world).1) ≠ none) :
    (pyLower it.again = "y" →
      mainLoop (it :: rest) =
        prependReqs (verify_paystack k r it.world).2 (mainLoop rest)) ∧
    (pyLower it.again ≠ "y" →
      mainLoop (it :: rest) = MainResult.done (verify_paystack k r it.world).2) := by
  constructor <;> intro h <;>
    rw [mainLoop_cons_step it rest k r hin hk hnc hd] <;> simp [h]

/-- Witness for C8: with the answer n the run ends normally after one
iteration, and with the answer y it would continue into the rest of the
script. -/
theorem repeat_iff_answer_y_witness :
    (pyLower "n" = "y" →
      mainLoop [⟨[AttemptEvent.entered "sk1" "ref1"], fun _ => HttpResult.exn "net", "n"⟩] =
        prependReqs (verify_paystack "sk1" "ref1" (fun _ => HttpResult.exn "net")).2
          (mainLoop [])) ∧
    (pyLower "n" ≠ "y" →
      mainLoop [⟨[AttemptEvent.entered "sk1" "ref1"], fun _ => HttpResult.exn "net", "n"⟩] =
        MainResult.done (verify_paystack "sk1" "ref1" (fun _ => HttpResult.exn "net")).2) :=
  repeat_iff_answer_y
    ⟨[AttemptEvent.entered "sk1" "ref1"], fun _ => HttpResult.exn "net", "n"⟩ []
    "sk1" "ref1" (by decide) (by decide) rfl (fun h => Option.noConfusion h)

/- ------------------------------------------------------------------ -/
/- Lemmas about display_results                                        -/
/- ------------------------------------------------------------------ -/

lemma asStr_getDefault (d : TxDict) (k dflt : String) (h : isStrField d k) :
    asStr (getDefault d k (JVal.jstr dflt)) = some (strFieldOr d k dflt) := by
  cases hd : dictGet d k with
  | none => simp [strFieldOr, getDefault, hd, asStr]
  | some v =>
    obtain ⟨s, rfl⟩ := h v hd
    simp [strFieldOr, getDefault, hd, asStr]

lemma asInt_getDefault (d : TxDict) (h : isIntField d "amount") :
    asInt (getDefault d "amount" (JVal.jnum 0)) = some (amountOr d) := by
  cases hd : dictGet d "amount" with
  | none => simp [amountOr, getDefault, hd, asInt]
  | some v =>
    obtain ⟨n, rfl⟩ := h v hd
    simp [amountOr, getDefault, hd, asInt]

lemma asObj_getDefault (d : TxDict)
    (h : ∀ c, dictGet d "customer" = some c →
      ∃ cd, c = JVal.jobj cd ∧ isStrField cd "email") :
    asObj (getDefault d "customer" (JVal.jobj [])) = some (customerOf d) := by
  cases hd : dictGet d "customer" with
  | none => simp [customerOf, getDefault, hd, asObj]
  | some c =>
    obtain ⟨cd, rfl, _⟩ := h c hd
    simp [customerOf, getDefault, hd, asObj]

lemma customer_email_field (d : TxDict)
    (h : ∀ c, dictGet d "customer" = some c →
      ∃ cd, c = JVal.jobj cd ∧ isStrField cd "email") :
    isStrField (customerOf d) "email" := by
  cases hd : dictGet d "customer" with
  | none =>
    intro v hv
    rw [show customerOf d = [] from by simp [customerOf, getDefault, hd, asObj]] at hv
    simp [dictGet] at hv
  | some c =>
    obtain ⟨cd, rfl, hcd⟩ := h c hd
    rw [show customerOf d = cd from by simp [customerOf, getDefault, hd, asObj]]
    exact hcd

lemma asStr_date (d : TxDict) (hp : isStrField d "paid_at")
    (hc : isStrField d "created_at") :
    asStr (getDefault d "paid_at" (getDefault d "created_at" (JVal.jstr "N/A"))) =
    some (dateOf d) := by
  cases hd : dictGet d "paid_at" with
  | none =>
    cases hd2 : dictGet d "created_at" with
    | none => simp [dateOf, getDefault, hd, hd2, asStr]
    | some v =>
      obtain ⟨s, rfl⟩ := hc v hd2
      simp [dateOf, getDefault, hd, hd2, asStr]
  | some v =>
    obtain ⟨s, rfl⟩ := hp v hd
    simp [dateOf, getDefault, hd, asStr]

lemma renderTable_wellTyped (d : TxDict) (hw : WellTypedTx d) :
    renderTable d = some (DisplayOut.table (rowsOf d) (styleOf d)) := by
  obtain ⟨hst, ham, hcur, href, hpaid, hcre, hchan, hcust⟩ := hw
  rw [renderTable, asStr_getDefault d "status" "N/A" hst, asInt_getDefault d ham,
    asStr_getDefault d "currency" "" hcur, asStr_getDefault d "reference" "N/A" href,
    asObj_getDefault d hcust]
  dsimp only
  rw [asStr_getDefault (customerOf d) "email" "N/A" (customer_email_field d hcust),
    asStr_date d hpaid hcre, asStr_getDefault d "channel" "N/A" hchan]
  rfl

lemma display_results_obj (d : TxDict) (hw : WellTypedTx d) (hne : d ≠ []) :
    display_results (some (JVal.jobj d)) =
    some (DisplayOut.table (rowsOf d) (styleOf d)) := by
  have ht : pyTruthy (JVal.jobj d) = true := by
    cases d with
    | nil => exact absurd rfl hne
    | cons a as => rfl
  simp [display_results, ht, renderTable_wellTyped d ⟨hw.1, hw.2.1, hw.2.2.1,
    hw.2.2.2.1, hw.2.2.2.2.1, hw.2.2.2.2.2.1, hw.2.2.2.2.2.2.1, hw.2.2.2.2.2.2.2⟩]

lemma isStrField_of_none {d : TxDict} {k : String} (h : dictGet d k = none) :
    isStrField d k := by
  intro v hv
  rw [h] at hv
  cases hv

lemma isIntField_of_none {d : TxDict} {k : String} (h : dictGet d k = none) :
    isIntField d k := by
  intro v hv
  rw [h] at hv
  cases hv

lemma isStrField_of_str {d : TxDict} {k s : String}
    (h : dictGet d k = some (JVal.jstr s)) : isStrField d k := by
  intro v hv
  rw [h] at hv
  injection hv with hv
  exact ⟨s, hv.symm⟩

lemma isIntField_of_num {d : TxDict} {k : String} {n : Int}
    (h : dictGet d k = some (JVal.jnum n)) : isIntField d k := by
  intro v hv
  rw [h] at hv
  injection hv with hv
  exact ⟨n, hv.symm⟩

lemma customerClause_of_none {d : TxDict} (h : dictGet d "customer" = none) :
    ∀ c, dictGet d "customer" = some c →
      ∃ cd, c = JVal.jobj cd ∧ isStrField cd "email" := by
  intro c hc
  rw [h] at hc
  cases hc

/- ------------------------------------------------------------------ -/
/- Claim theorems C2, C6, C7, C10                                      -/
/- ------------------------------------------------------------------ -/

/-- Claim C2: in the table shown for a transaction dict, the amount cell
holds the value of the amount field divided by 100 (kobo to major unit),
and 0 when the field is absent. -/
theorem display_amount_division (d : TxDict) (hw : WellTypedTx d) (hne : d ≠ []) :
    ∃ rows style,
      display_results (some (JVal.jobj d)) = some (DisplayOut.table rows style) ∧
      (∀ n : Int, dictGet d "amount" = some (JVal.jnum n) →
        ∃ c, rows[2]? = some ⟨"Amount", Cell.money ((n : ℚ) / 100) c⟩) ∧
      (dictGet d "amount" = none →
        ∃ c, rows[2]? = some ⟨"Amount", Cell.money 0 c⟩) := by
  refine ⟨rowsOf d, styleOf d, display_results_obj d hw hne, ?_, ?_⟩
  · intro n hn
    refine ⟨strFieldOr d "currency" "", ?_⟩
    have ha : amountOr d = n := by simp [amountOr, getDefault, hn, asInt]
    simp [rowsOf, ha]
  · intro hn
    refine ⟨strFieldOr d "currency" "", ?_⟩
    have ha : amountOr d = 0 := by simp [amountOr, getDefault, hn, asInt]
    simp [rowsOf, ha]

/-- Witness for C2: a dict holding 12345 kobo is displayed with amount
123.45, and a dict without an amount field with amount 0. -/
theorem display_amount_division_witness :
    (∃ rows style,
      display_results (some (JVal.jobj [("amount", JVal.jnum 12345)])) =
        some (DisplayOut.table rows style) ∧
      (∀ n : Int, dictGet [("amount", JVal.jnum 12345)] "amount" = some (JVal.jnum n) →
        ∃ c, rows[2]? = some ⟨"Amount", Cell.money ((n : ℚ) / 100) c⟩) ∧
      (dictGet [("amount", JVal.jnum 12345)] "amount" = none →
        ∃ c, rows[2]? = some ⟨"Amount", Cell.money 0 c⟩)) ∧
    ((12345 : ℚ) / 100 = 123.45) := by
  constructor
  · exact display_amount_division [("amount", JVal.jnum 12345)]
      ⟨isStrField_of_none rfl, isIntField_of_num rfl, isStrField_of_none rfl,
       isStrField_of_none rfl, isStrField_of_none rfl, isStrField_of_none rfl,
       isStrField_of_none rfl, customerClause_of_none rfl⟩
      (List.cons_ne_nil _ _)
  · norm_num

/-- Claim C6: the table printed for a transaction dict has exactly the rows
Status, Reference, Amount, Customer Email, Transaction Date and Channel,
with the currency carried inside the Amount cell. -/
theorem display_table_fields (d : TxDict) (hw : WellTypedTx d) (hne : d ≠ []) :
    ∃ rows style,
      display_results (some (JVal.jobj d)) = some (DisplayOut.table rows style) ∧
      rows.map Row.field =
        ["Status", "Reference", "Amount", "Customer Email",
         "Transaction Date", "Channel"] ∧
      ∃ v, rows[2]? = some ⟨"Amount", Cell.money v (strFieldOr d "currency" "")⟩ := by
  refine ⟨rowsOf d, styleOf d, display_results_obj d hw hne, rfl, ?_⟩
  exact ⟨(amountOr d : ℚ) / 100, rfl⟩

/-- Witness for C6 at a one-field dict. -/
theorem display_table_fields_witness :
    ∃ rows style,
      display_results (some (JVal.jobj [("reference", JVal.jstr "tx_1")])) =
        some (DisplayOut.table rows style) ∧
      rows.map Row.field =
        ["Status", "Reference", "Amount", "Customer Email",
         "Transaction Date", "Channel"] ∧
      ∃ v, rows[2]? = some ⟨"Amount",
        Cell.money v (strFieldOr [("reference", JVal.jstr "tx_1")] "currency" "")⟩ :=
  display_table_fields [("reference", JVal.jstr "tx_1")]
    ⟨isStrField_of_none rfl, isIntField_of_none rfl, isStrField_of_none rfl,
     isStrField_of_str rfl, isStrField_of_none rfl, isStrField_of_none rfl,
     isStrField_of_none rfl, customerClause_of_none rfl⟩
    (List.cons_ne_nil _ _)

/-- Claim C7: the status row is styled bold green exactly when the status
field equals success, and bold red in every other case, including when the
field is absent. -/
theorem display_status_styling (d : TxDict) (hw : WellTypedTx d) (hne : d ≠ []) :
    ∃ rows style,
      display_results (some (JVal.jobj d)) = some (DisplayOut.table rows style) ∧
      (style = "bold green" ↔ dictGet d "status" = some (JVal.jstr "success")) ∧
      (style = "bold green" ∨ style = "bold red") := by
  refine ⟨rowsOf d, styleOf d, display_results_obj d hw hne, ?_, ?_⟩
  · constructor
    · intro hg
      by_cases hs : statusOf d = "success"
      · cases hd : dictGet d "status" with
        | none =>
          rw [show statusOf d = "N/A" from by
            simp [statusOf, strFieldOr, getDefault, hd, asStr]] at hs
          exact absurd hs (by decide)
        | some v =>
          obtain ⟨s, rfl⟩ := hw.1 v hd
          rw [show statusOf d = s from by
            simp [statusOf, strFieldOr, getDefault, hd, asStr]] at hs
          rw [hs]
      · rw [styleOf, if_neg hs] at hg
        exact absurd hg (by decide)
    · intro hd
      have hs : statusOf d = "success" := by
        simp [statusOf, strFieldOr, getDefault, hd, asStr]
      simp [styleOf, hs]
  · rw [styleOf]
    by_cases hs : statusOf d = "success" <;> simp [hs]

/-- Witness for C7: a dict whose status is success gets bold green, one
whose status is failed gets bold red. -/
theorem display_status_styling_witness :
    (∃ rows style,
      display_results (some (JVal.jobj [("status", JVal.jstr "success")])) =
        some (DisplayOut.table rows style) ∧
      (style = "bold green" ↔
        dictGet [("status", JVal.jstr "success")] "status" =
          some (JVal.jstr "success")) ∧
      (style = "bold green" ∨ style = "bold red")) ∧
    (∃ rows style,
      display_results (some (JVal.jobj [("status", JVal.jstr "failed")])) =
        some (DisplayOut.table rows style) ∧
      (style = "bold green" ↔
        dictGet [("status", JVal.jstr "failed")] "status" =
          some (JVal.jstr "success")) ∧
      (style = "bold green" ∨ style = "bold red")) := by
  constructor
  · exact display_status_styling [("status", JVal.jstr "success")]
      ⟨isStrField_of_str rfl, isIntField_of_none rfl, isStrField_of_none rfl,
       isStrField_of_none rfl, isStrField_of_none rfl, isStrField_of_none rfl,
       isStrField_of_none rfl, customerClause_of_none rfl⟩
      (List.cons_ne_nil _ _)
  · exact display_status_styling [("status", JVal.jstr "failed")]
      ⟨isStrField_of_str rfl, isIntField_of_none rfl, isStrField_of_none rfl,
       isStrField_of_none rfl, isStrField_of_none rfl, isStrField_of_none rfl,
       isStrField_of_none rfl, customerClause_of_none rfl⟩
      (List.cons_ne_nil _ _)

/-- Claim C10: display_results is total at the values main hands it: a
falsy argument (None or the empty dict) yields the failure message and no
table, and a dict with displayed fields absent gets the defaults
substituted instead of raising. -/
theorem display_results_total (d : TxDict) (hw : WellTypedTx d) :
    display_results none = some DisplayOut.failure ∧
    display_results (some (JVal.jobj [])) = some DisplayOut.failure ∧
    (d ≠ [] → ∃ rows style,
      display_results (some (JVal.jobj d)) = some (DisplayOut.table rows style) ∧
      (dictGet d "status" = none →
        rows[0]? = some ⟨"Status", Cell.text "N/A"⟩) ∧
      (dictGet d "reference" = none →
        rows[1]? = some ⟨"Reference", Cell.text "N/A"⟩) ∧
      (dictGet d "amount" = none →
        ∃ c, rows[2]? = some ⟨"Amount", Cell.money 0 c⟩) ∧
      (dictGet d "currency" = none →
        ∃ v, rows[2]? = some ⟨"Amount", Cell.money v ""⟩) ∧
      (dictGet d "customer" = none →
        rows[3]? = some ⟨"Customer Email", Cell.text "N/A"⟩) ∧
      (dictGet d "paid_at" = none → dictGet d "created_at" = none →
        rows[4]? = some ⟨"Transaction Date", Cell.text "N/A"⟩) ∧
      (dictGet d "channel" = none →
        rows[5]? = some ⟨"Channel", Cell.text "N/A"⟩)) := by
  refine ⟨rfl, rfl, fun hne => ⟨rowsOf d, styleOf d, display_results_obj d hw hne,
    ?_, ?_, ?_, ?_, ?_, ?_, ?_⟩⟩
  · intro hd
    have hs : statusOf d = "N/A" := by
      simp [statusOf, strFieldOr, getDefault, hd, asStr]
    have hti : pyTitle "N/A" = "N/A" := by decide
    simp [rowsOf, hs, hti]
  · intro hd
    have hs : strFieldOr d "reference" "N/A" = "N/A" := by
      simp [strFieldOr, getDefault, hd, asStr]
    simp [rowsOf, hs]
  · intro hd
    have ha : amountOr d = 0 := by simp [amountOr, getDefault, hd, asInt]
    exact ⟨strFieldOr d "currency" "", by simp [rowsOf, ha]⟩
  · intro hd
    have hc : strFieldOr d "currency" "" = "" := by
      simp [strFieldOr, getDefault, hd, asStr]
    exact ⟨(amountOr d : ℚ) / 100, by simp [rowsOf, hc]⟩
  · intro hd
    have hcu : customerOf d = [] := by simp [customerOf, getDefault, hd, asObj]
    have he : emailOf d = "N/A" := by
      simp [emailOf, hcu, strFieldOr, getDefault, dictGet, asStr]
    simp [rowsOf, he]
  · intro hd hd2
    have hdt : dateOf d = "N/A" := by simp [dateOf, getDefault, hd, hd2, asStr]
    simp [rowsOf, hdt]
  · intro hd
    have hs : strFieldOr d "channel" "N/A" = "N/A" := by
      simp [strFieldOr, getDefault, hd, asStr]
    simp [rowsOf, hs]

/-- Witness for C10 at a dict that has none of the displayed fields: every
default appears. -/
theorem display_results_total_witness :
    display_results none = some DisplayOut.failure ∧
    display_results (some (JVal.jobj [])) = some DisplayOut.failure ∧
    ([("id", JVal.jnum 1)] ≠ ([] : TxDict) → ∃ rows style,
      display_results (some (JVal.jobj [("id", JVal.jnum 1)])) =
        some (DisplayOut.table rows style) ∧
      (dictGet [("id", JVal.jnum 1)] "status" = none →
        rows[0]? = some ⟨"Status", Cell.text "N/A"⟩) ∧
      (dictGet [("id", JVal.jnum 1)] "reference" = none →
        rows[1]? = some ⟨"Reference", Cell.text "N/A"⟩) ∧
      (dictGet [("id", JVal.jnum 1)] "amount" = none →
        ∃ c, rows[2]? = some ⟨"Amount", Cell.money 0 c⟩) ∧
      (dictGet [("id", JVal.jnum 1)] "currency" = none →
        ∃ v, rows[2]? = some ⟨"Amount", Cell.money v ""⟩) ∧
      (dictGet [("id", JVal.jnum 1)] "customer" = none →
        rows[3]? = some ⟨"Customer Email", Cell.text "N/A"⟩) ∧
      (dictGet [("id", JVal.jnum 1)] "paid_at" = none →
        dictGet [("id", JVal.jnum 1)] "created_at" = none →
        rows[4]? = some ⟨"Transaction Date", Cell.text "N/A"⟩) ∧
      (dictGet [("id", JVal.jnum 1)] "channel" = none →
        rows[5]? = some ⟨"Channel", Cell.text "N/A"⟩)) :=
  display_results_total [("id", JVal.jnum 1)]
    ⟨isStrField_of_none rfl, isIntField_of_none rfl, isStrField_of_none rfl,
     isStrField_of_none rfl, isStrField_of_none rfl, isStrField_of_none rfl,
     isStrField_of_none rfl, customerClause_of_none rfl⟩

end Verifier
